/-
Verification of the Draw repository (image-to-pixel conversion service and
its playback client) against its natural-language specification.

The development shallowly embeds the relevant parts of `src/server.js` and
`src/Draw.lua`:
  * `imageToPixels` — the alpha-filtering pixel-extraction loop over the
    resized RGBA raster (server.js, lines 88-105);
  * filename sanitization from `saveImageToRepo` (server.js, line 127);
  * `getFileSha` / `writeFileToGitHub` — the read-hash-then-write client
    (server.js, lines 52-85), over a store whose conditional-write
    semantics (the GitHub contents API) are modelled from the spec;
  * `saveDrawingJson` — document publication (server.js, lines 108-123),
    with the wall clock passed as an explicit argument;
  * the PlaybackAgent of Draw.lua: `fetchAndDraw`, `startDrawing`, the
    heartbeat batch loop, and the polling guard on `isDrawing`.

Machine integers do not overflow in any embedded path (all quantities are
small counts and 0-255 colour channels), so Nat is used throughout.
-/
import Mathlib

set_option linter.unusedVariables false

-- ═══════════════════════════════════════════════════════════════════
-- PixelEncoder: src/server.js, imageToPixels (lines 88-105)
-- ═══════════════════════════════════════════════════════════════════

/-- One emitted pixel record `{x, y, r, g, b}` (1-based coordinates). -/
structure PixelRecord where
  x : Nat
  y : Nat
  r : Nat
  g : Nat
  b : Nat
deriving DecidableEq, Repr

/-- Body of the inner loop of `imageToPixels`: at cell `(x, y)` of a raster
of the given width, read RGBA at `i = (y*width + x)*4`, skip the cell when
`a < 10`, else emit `{x: x+1, y: y+1, r, g, b}`. -/
def pixelAt (data : Nat → Nat) (width y x : Nat) : Option PixelRecord :=
  if data ((y * width + x) * 4 + 3) < 10 then none
  else some { x := x + 1, y := y + 1, r := data ((y * width + x) * 4),
              g := data ((y * width + x) * 4 + 1), b := data ((y * width + x) * 4 + 2) }

/-- `imageToPixels` of server.js after the external resize step: iterate
`y` outer ascending, `x` inner ascending over the `width × height` raster
and collect the surviving records in row-major order.  `data` is the flat
RGBA buffer produced by the decode/resize library. -/
def imageToPixels (width height : Nat) (data : Nat → Nat) : List PixelRecord :=
  (List.range height).flatMap (fun y => (List.range width).filterMap (fun x => pixelAt data width y x))

theorem filterMap_eq_nil_of_none {α β : Type} (l : List α) (f : α → Option β)
    (h : ∀ a ∈ l, f a = none) : l.filterMap f = [] := by
  induction l with
  | nil => rfl
  | cons a l ih =>
      rw [List.filterMap_cons, h a (List.mem_cons_self a l)]
      exact ih (fun b hb => h b (List.mem_cons_of_mem a hb))

theorem length_filterMap_of_isSome {α β : Type} (l : List α) (f : α → Option β)
    (h : ∀ a ∈ l, (f a).isSome = true) : (l.filterMap f).length = l.length := by
  induction l with
  | nil => rfl
  | cons a l ih =>
      rw [List.filterMap_cons]
      cases hfa : f a with
      | none => exact absurd (hfa ▸ h a (List.mem_cons_self a l)) (by simp)
      | some b =>
          simp only [List.length_cons]
          rw [ih (fun c hc => h c (List.mem_cons_of_mem a hc))]

theorem flatMap_eq_nil_of_nil {α β : Type} (l : List α) (g : α → List β)
    (h : ∀ a ∈ l, g a = []) : l.flatMap g = [] := by
  induction l with
  | nil => rfl
  | cons a l ih =>
      rw [List.flatMap_cons, h a (List.mem_cons_self a l)]
      exact ih (fun b hb => h b (List.mem_cons_of_mem a hb))

theorem length_flatMap_const {α β : Type} (l : List α) (g : α → List β) (k : Nat)
    (h : ∀ a ∈ l, (g a).length = k) : (l.flatMap g).length = l.length * k := by
  induction l with
  | nil => simp
  | cons a l ih =>
      rw [List.flatMap_cons, List.length_append, h a (List.mem_cons_self a l),
        ih (fun b hb => h b (List.mem_cons_of_mem a hb))]
      simp [Nat.succ_mul, Nat.add_comm]

/-- C8: for the pixel-extraction loop of `imageToPixels` over a
`targetSize × targetSize` raster (the shape guaranteed by the `fit: "fill"`
resize), a raster whose every cell has alpha below the threshold 10 yields
the empty pixel list, and a raster whose every cell has alpha at least 10
(in particular a fully opaque one) yields exactly `targetSize ^ 2`
records. -/
theorem imageToPixels_transparency (n : Nat) (data : Nat → Nat) :
    ((∀ y < n, ∀ x < n, data ((y * n + x) * 4 + 3) < 10) →
        imageToPixels n n data = []) ∧
    ((∀ y < n, ∀ x < n, 10 ≤ data ((y * n + x) * 4 + 3)) →
        (imageToPixels n n data).length = n ^ 2) := by
  constructor
  · intro h
    refine flatMap_eq_nil_of_nil _ _ (fun y hy => ?_)
    rw [List.mem_range] at hy
    refine filterMap_eq_nil_of_none _ _ (fun x hx => ?_)
    rw [List.mem_range] at hx
    simp only [pixelAt]
    rw [if_pos (h y hy x hx)]
  · intro h
    have hlen : (imageToPixels n n data).length = n * n := by
      rw [imageToPixels]
      rw [length_flatMap_const (List.range n)
        (fun y => (List.range n).filterMap (fun x => pixelAt data n y x)) n ?_,
        List.length_range]
      intro y hy
      rw [List.mem_range] at hy
      have := length_filterMap_of_isSome (List.range n) (fun x => pixelAt data n y x)
        (fun x hx => by
          rw [List.mem_range] at hx
          simp only [pixelAt]
          rw [if_neg (Nat.not_lt.mpr (h y hy x hx))]
          rfl)
      rw [this, List.length_range]
    rw [hlen, Nat.pow_two]

/-- Witness for C8 at `n = 2`: the all-transparent raster encodes to `[]`
and the all-opaque raster encodes to 4 records. -/
theorem imageToPixels_transparency_witness :
    imageToPixels 2 2 (fun _ => 0) = [] ∧
      (imageToPixels 2 2 (fun _ => 255)).length = 2 ^ 2 :=
  ⟨(imageToPixels_transparency 2 (fun _ => 0)).1 (by decide),
   (imageToPixels_transparency 2 (fun _ => 255)).2 (by decide)⟩

-- ═══════════════════════════════════════════════════════════════════
-- Filename sanitization: src/server.js, saveImageToRepo (line 127)
--   filename.toLowerCase().replace(/\s+/g, "_").replace(/[^a-z0-9._-]/g, "")
-- ═══════════════════════════════════════════════════════════════════

/-- JavaScript `\s` on the ASCII fragment relevant to filenames: space,
tab, line feed, carriage return, vertical tab, form feed. -/
def isJsWhitespace (c : Char) : Bool :=
  c = ' ' || c = '\t' || c = '\n' || c = '\r' || c = Char.ofNat 11 || c = Char.ofNat 12

/-- `replace(/\s+/g, "_")`: each maximal run of whitespace becomes a single
underscore.  The Boolean argument records whether the previous character
was part of a whitespace run already replaced. -/
def collapseWsAux : Bool → List Char → List Char
  | _, [] => []
  | inRun, c :: cs =>
      if isJsWhitespace c then
        if inRun then collapseWsAux true cs
        else '_' :: collapseWsAux true cs
      else c :: collapseWsAux false cs

def collapseWs (l : List Char) : List Char :=
  collapseWsAux false l

/-- Character class `[a-z0-9._-]` of the final strip step. -/
def isSafeChar (c : Char) : Bool :=
  ('a' ≤ c && c ≤ 'z') || ('0' ≤ c && c ≤ '9') || c = '.' || c = '_' || c = '-'

/-- `const safe = filename.toLowerCase().replace(/\s+/g, "_").replace(/[^a-z0-9._-]/g, "")`
from `saveImageToRepo` (ASCII fragment of `toLowerCase`). -/
def sanitizeFilename (s : String) : String :=
  String.mk ((collapseWs (s.data.map Char.toLower)).filter (fun c => isSafeChar c))

/-- C9: the archived filename is the sanitization of the original —
lower-cased, whitespace runs replaced by single underscores, characters
outside `[a-z0-9._-]` stripped; in particular `"My Photo! (1).PNG"`
sanitizes to `"my_photo_1.png"`, and every character of any sanitized
name lies in the restricted charset. -/
theorem sanitizeFilename_spec :
    sanitizeFilename "My Photo! (1).PNG" = "my_photo_1.png" ∧
    ∀ s : String, (sanitizeFilename s).data.all (fun c => isSafeChar c) = true := by
  constructor
  · decide
  · intro s
    rw [List.all_eq_true]
    intro c hc
    exact (List.mem_filter.mp hc).2

-- ═══════════════════════════════════════════════════════════════════
-- RemoteDocumentStore: src/server.js, getFileSha / writeFileToGitHub
-- (lines 52-85), saveDrawingJson (lines 108-123)
-- ═══════════════════════════════════════════════════════════════════

/-- Failure modes of a GitHub contents-API request, as the spec's error
taxonomy classifies them: missing path/repository, bad credential,
insufficient scope, rate limiting, transient network failure. -/
inductive ApiFailure
  | notFound
  | unauthorized
  | forbidden
  | rateLimited
  | networkError
deriving DecidableEq, Repr

/-- `getFileSha` of server.js: the whole GET is wrapped in
`try { ... return res.data.sha } catch { return null }`, so every failed
response — whatever its kind — becomes `null`. -/
def getFileSha (resp : Except ApiFailure Nat) : Option Nat :=
  match resp with
  | .ok sha => some sha
  | .error _ => none

/-- Body of the PUT issued by `writeFileToGitHub`: the `sha` field is
present exactly when `getFileSha` returned one
(`...(sha ? { sha } : {})`). -/
structure PutRequest where
  message : String
  content : String
  branch : String
  sha : Option Nat
deriving DecidableEq, Repr

def GITHUB_BRANCH : String := "main"

/-- The PUT request `writeFileToGitHub` sends after its `getFileSha` call
answered `resp`. -/
def writeRequestOf (resp : Except ApiFailure Nat) (content message : String) : PutRequest :=
  { message := message, content := content, branch := GITHUB_BRANCH, sha := getFileSha resp }

/-- C10: `getFileSha` maps every failure — not only 404 — to `null`
(absent), so the subsequent PUT built by `writeFileToGitHub` carries no
hash token (an unconditional create) even when the path may exist. -/
theorem getFileSha_absorbs_all_failures (e : ApiFailure) (content message : String) :
    getFileSha (.error e) = none ∧
      (writeRequestOf (.error e) content message).sha = none :=
  ⟨rfl, rfl⟩

/-- Witness for C10 at a rate-limit failure. -/
theorem getFileSha_absorbs_all_failures_witness :
    getFileSha (.error .rateLimited) = none ∧
      (writeRequestOf (.error .rateLimited) "abc" "msg").sha = none :=
  getFileSha_absorbs_all_failures .rateLimited "abc" "msg"

/-- Store-side write errors of the spec's taxonomy. -/
inductive StoreError
  | conflictError
  | notFoundError
deriving DecidableEq, Repr

/-- State of the remote store: files as `(path, sha, content)` triples
(first match wins) plus a counter from which fresh content hashes are
drawn.  `α` is the content type. -/
structure StoreState (α : Type) where
  files : List (String × Nat × α)
  nextSha : Nat
deriving DecidableEq

def StoreState.lookup {α : Type} (st : StoreState α) (p : String) : Option (Nat × α) :=
  (st.files.find? (fun e => e.1 = p)).map (fun e => e.2)

/-- Record `content` under `p` with a fresh sha. -/
def StoreState.store {α : Type} (st : StoreState α) (p : String) (content : α) : StoreState α :=
  { files := (p, st.nextSha, content) :: st.files, nextSha := st.nextSha + 1 }

/-- Every recorded sha was drawn from the counter. -/
def StoreState.WF {α : Type} (st : StoreState α) : Bool :=
  st.files.all (fun e => e.2.1 < st.nextSha)

/-- Modelled from the spec: the conditional-write semantics of the remote
content API (the GitHub contents endpoint), which is not part of src/ —
src/server.js only issues the requests.  Per §4.2, `write` creates the
path if the hash token is absent and the path does not exist; otherwise it
requires the token to match the store's current hash for that path and
replaces the content, else fails with `ConflictError`. -/
def storePut {α : Type} (st : StoreState α) (p : String) (content : α)
    (expectedSha : Option Nat) : Except StoreError (StoreState α) :=
  match st.lookup p with
  | none =>
      match expectedSha with
      | none => .ok (st.store p content)
      | some _ => .error .conflictError
  | some cc =>
      match expectedSha with
      | none => .error .conflictError
      | some h => if h = cc.1 then .ok (st.store p content) else .error .conflictError

/-- `writeFileToGitHub` of server.js run sequentially (no interleaving):
read the current sha with `getFileSha`, then PUT with that token. -/
def writeFileToGitHubSeq {α : Type} (st : StoreState α) (p : String) (content : α) :
    Except StoreError (StoreState α) :=
  storePut st p content ((st.lookup p).map (fun e => e.1))

theorem lookup_store_self {α : Type} (st : StoreState α) (p : String) (content : α) :
    (st.store p content).lookup p = some (st.nextSha, content) := by
  simp [StoreState.lookup, StoreState.store, List.find?]

theorem lookup_sha_lt_of_WF {α : Type} (st : StoreState α) (p : String) (h : Nat) (c : α)
    (hwf : st.WF = true) (hl : st.lookup p = some (h, c)) : h < st.nextSha := by
  unfold StoreState.lookup at hl
  cases hf : st.files.find? (fun e => e.1 = p) with
  | none => rw [hf] at hl; exact absurd hl (by simp)
  | some e =>
      rw [hf] at hl
      have hmem : e ∈ st.files := List.mem_of_find?_eq_some hf
      have := (List.all_eq_true.mp hwf) e hmem
      have he : e.2 = (h, c) := by simpa using hl
      simp only [decide_eq_true_eq] at this
      rw [he] at this
      exact this

/-- C1: two writes to the same path both carrying the same expected hash
`h` (read while it was current): the first succeeds and assigns the path a
fresh hash, and the second — whose token `h` is now stale — fails with
`ConflictError` instead of overwriting. -/
theorem second_stale_write_conflicts {α : Type} (st : StoreState α) (p : String)
    (c₁ c₂ : α) (h : Nat) (cur : α)
    (hwf : st.WF = true) (hlook : st.lookup p = some (h, cur)) :
    storePut st p c₁ (some h) = .ok (st.store p c₁) ∧
      storePut (st.store p c₁) p c₂ (some h) = .error .conflictError := by
  constructor
  · unfold storePut
    rw [hlook]
    simp
  · have hlt : h < st.nextSha := lookup_sha_lt_of_WF st p h cur hwf hlook
    unfold storePut
    rw [lookup_store_self]
    simp [Nat.ne_of_lt hlt]

/-- Witness for C1 on a one-file store holding `drawing.json` at sha 0. -/
theorem second_stale_write_conflicts_witness :
    storePut ⟨[("drawing.json", 0, "old")], 1⟩ "drawing.json" "first" (some 0)
        = .ok (StoreState.store ⟨[("drawing.json", 0, "old")], 1⟩ "drawing.json" "first") ∧
      storePut (StoreState.store ⟨[("drawing.json", 0, "old")], 1⟩ "drawing.json" "first")
        "drawing.json" "second" (some 0) = .error .conflictError :=
  second_stale_write_conflicts ⟨[("drawing.json", 0, "old")], 1⟩ "drawing.json"
    "first" "second" 0 "old" (by decide) (by decide)

-- ═══════════════════════════════════════════════════════════════════
-- DrawingDocument publication: src/server.js, saveDrawingJson
-- ═══════════════════════════════════════════════════════════════════

/-- `meta` of the published document.  `updatedAt` is the stamp. -/
structure DocMeta where
  canvasSize : Nat
  totalPixels : Nat
  updatedAt : String
  filename : Option String
  imageUrl : Option String
deriving DecidableEq, Repr

structure DrawingDocument where
  meta : DocMeta
  pixels : List PixelRecord
deriving DecidableEq, Repr

def DRAWING_FILE : String := "drawing.json"

/-- The payload built by `saveDrawingJson`: `now` is the wall-clock
reading `new Date().toISOString()`, passed here as an explicit argument.
The call sites of server.js pass only `filename`/`imageUrl` in the
`...meta` spread, so the spread never overrides the stamp. -/
def mkDrawingPayload (canvasSize : Nat) (pixels : List PixelRecord) (now : String)
    (filename imageUrl : Option String) : DrawingDocument :=
  { meta := { canvasSize := canvasSize, totalPixels := pixels.length,
              updatedAt := now, filename := filename, imageUrl := imageUrl },
    pixels := pixels }

/-- `saveDrawingJson`: build the payload and write it to `drawing.json`
through `writeFileToGitHub` (read current sha, then PUT). -/
def saveDrawingJson (st : StoreState DrawingDocument) (canvasSize : Nat)
    (pixels : List PixelRecord) (now : String) (filename imageUrl : Option String) :
    Except StoreError (StoreState DrawingDocument) :=
  writeFileToGitHubSeq st DRAWING_FILE (mkDrawingPayload canvasSize pixels now filename imageUrl)

/-- Reading the published document back from the store. -/
def readDrawing (st : StoreState DrawingDocument) : Option DrawingDocument :=
  (st.lookup DRAWING_FILE).map (fun e => e.2)

/-- An uninterleaved `writeFileToGitHub` always succeeds: the sha it just
read is still current when the PUT arrives. -/
theorem writeFileToGitHubSeq_ok {α : Type} (st : StoreState α) (p : String) (c : α) :
    writeFileToGitHubSeq st p c = .ok (st.store p c) := by
  unfold writeFileToGitHubSeq storePut
  cases hl : st.lookup p with
  | none => simp
  | some cc => simp

/-- C3 fails as stated: the stamp is nothing but the millisecond
wall-clock reading, so two successive successful publishes that fall in
the same clock reading carry identical stamps.  Concretely: publishing
the empty drawing and then a one-pixel drawing, both while the clock
reads `2026-01-01T00:00:00.000Z`, gives two successful writes whose
read-back documents differ but whose stamps are equal. -/
theorem updatedAt_repeats_same_millisecond :
    ((saveDrawingJson ⟨[], 0⟩ 64 [] "2026-01-01T00:00:00.000Z" none none).bind
        (fun st₁ =>
          (saveDrawingJson st₁ 64 [⟨1, 1, 255, 0, 0⟩] "2026-01-01T00:00:00.000Z" none none).map
            (fun st₂ =>
              ((readDrawing st₁).map (fun d => d.meta.updatedAt),
               (readDrawing st₂).map (fun d => d.meta.updatedAt),
               decide (readDrawing st₁ = readDrawing st₂)))))
      = .ok (some "2026-01-01T00:00:00.000Z", some "2026-01-01T00:00:00.000Z", false) := by
  rfl

/-- C3 amended: the stamp written by `saveDrawingJson` equals the clock
reading passed to it, so two successive successful publishes carry
different stamps whenever their wall-clock readings differ (which the
code does not itself ensure); reading the document back immediately
yields the publishing call's stamp. -/
theorem updatedAt_changes_with_clock (st : StoreState DrawingDocument)
    (cs₁ cs₂ : Nat) (pix₁ pix₂ : List PixelRecord) (t₁ t₂ : String)
    (f₁ f₂ u₁ u₂ : Option String) (hne : t₁ ≠ t₂) :
    ∃ st₁ st₂,
      saveDrawingJson st cs₁ pix₁ t₁ f₁ u₁ = .ok st₁ ∧
      saveDrawingJson st₁ cs₂ pix₂ t₂ f₂ u₂ = .ok st₂ ∧
      (readDrawing st₁).map (fun d => d.meta.updatedAt) = some t₁ ∧
      (readDrawing st₂).map (fun d => d.meta.updatedAt) = some t₂ ∧
      (readDrawing st₂).map (fun d => d.meta.updatedAt)
        ≠ (readDrawing st₁).map (fun d => d.meta.updatedAt) := by
  refine ⟨_, _, writeFileToGitHubSeq_ok st DRAWING_FILE _,
    writeFileToGitHubSeq_ok _ DRAWING_FILE _, ?_, ?_, ?_⟩
  · rw [readDrawing, lookup_store_self]
    rfl
  · rw [readDrawing, lookup_store_self]
    rfl
  · rw [readDrawing, readDrawing, lookup_store_self, lookup_store_self]
    simpa [mkDrawingPayload] using fun heq => hne heq.symm

/-- Witness for C3 amended: publishes one millisecond apart have distinct
read-back stamps. -/
theorem updatedAt_changes_with_clock_witness :
    ∃ st₁ st₂,
      saveDrawingJson ⟨[], 0⟩ 64 [] "2026-01-01T00:00:00.000Z" none none = .ok st₁ ∧
      saveDrawingJson st₁ 64 [] "2026-01-01T00:00:00.001Z" none none = .ok st₂ ∧
      (readDrawing st₁).map (fun d => d.meta.updatedAt) = some "2026-01-01T00:00:00.000Z" ∧
      (readDrawing st₂).map (fun d => d.meta.updatedAt) = some "2026-01-01T00:00:00.001Z" ∧
      (readDrawing st₂).map (fun d => d.meta.updatedAt)
        ≠ (readDrawing st₁).map (fun d => d.meta.updatedAt) :=
  updatedAt_changes_with_clock ⟨[], 0⟩ 64 64 [] [] "2026-01-01T00:00:00.000Z"
    "2026-01-01T00:00:00.001Z" none none none none (by decide)

-- ═══════════════════════════════════════════════════════════════════
-- PixelEncoder failure modes (C5)
-- ═══════════════════════════════════════════════════════════════════

inductive EncodeError
  | emptyInputError
  | decodeError
deriving DecidableEq, Repr

/-- Modelled from the spec: the decode/resize library (sharp) is an
external collaborator whose code is not under src/ — `imageToPixels` only
calls it and propagates its errors.  Per §4.1 it is a pure function from
bytes to a raster, signalling `EmptyInputError` on zero-length input and
`DecodeError` when non-empty input cannot be interpreted as a raster
image.  `decode` abstracts which non-empty byte strings are decodable. -/
def sharpDecodeResize (decode : List Nat → Option (Nat → Nat)) (bytes : List Nat) :
    Except EncodeError (Nat → Nat) :=
  if bytes.isEmpty then .error .emptyInputError
  else
    match decode bytes with
    | some raster => .ok raster
    | none => .error .decodeError

/-- `encode(bytes, targetSize, threshold)`: decode/resize, then run the
pixel-extraction loop of `imageToPixels`.  Errors of the decode step
propagate unchanged (server.js catches them only at the route boundary). -/
def encode (decode : List Nat → Option (Nat → Nat)) (bytes : List Nat)
    (targetSize : Nat) : Except EncodeError (List PixelRecord) :=
  (sharpDecodeResize decode bytes).map (fun raster => imageToPixels targetSize targetSize raster)

/-- C5: zero-length input makes `encode` signal `EmptyInputError`, which
is a different error from the `DecodeError` signalled when a non-empty
input is not decodable as a raster image. -/
theorem encode_empty_input (decode : List Nat → Option (Nat → Nat))
    (bytes : List Nat) (n : Nat) (hne : bytes ≠ []) (hdec : decode bytes = none) :
    encode decode [] n = .error .emptyInputError ∧
      encode decode bytes n = .error .decodeError ∧
      EncodeError.emptyInputError ≠ EncodeError.decodeError := by
  refine ⟨rfl, ?_, by decide⟩
  unfold encode sharpDecodeResize
  rw [if_neg (by simpa using hne), hdec]
  rfl

/-- Witness for C5 with the nothing-decodes oracle and the one-byte input. -/
theorem encode_empty_input_witness :
    encode (fun _ => none) [] 2 = .error .emptyInputError ∧
      encode (fun _ => none) [1] 2 = .error .decodeError ∧
      EncodeError.emptyInputError ≠ EncodeError.decodeError :=
  encode_empty_input (fun _ => none) [1] 2 (by decide) rfl

-- ═══════════════════════════════════════════════════════════════════
-- PlaybackAgent: src/Draw.lua
-- ═══════════════════════════════════════════════════════════════════

def BATCH_SIZE : Nat := 5

def TARGET_LAYER : Nat := 1

/-- An entry of the `formatted` table built by `sendBulk`. -/
structure FormattedPixel where
  X : Nat
  Y : Nat
  colorR : Nat
  colorG : Nat
  colorB : Nat
  layer : Nat
deriving DecidableEq, Repr

/-- Calls the Draw.lua script makes to the outside world. -/
inductive AgentCall
  | fetchRequest                                       -- HttpService GetAsync, cache-busted
  | colorSelect (r g b : Nat)                          -- ChangeSetting FireServer
  | bulk (layer : Nat) (batch : List FormattedPixel)   -- ReplicateCanvas FireServer
  | updateBoard                                        -- UpdateBoard FireServer
deriving DecidableEq, Repr

/-- `setColor` of Draw.lua (lines 166-176): skip everything when the
colour equals `lastColor`; otherwise record it and fire `ChangeSetting`
twice (both argument formats are attempted unconditionally).  The helper
is defined in Draw.lua but never invoked from the replay path. -/
def setColor (lastColor : Option (Nat × Nat × Nat)) (r g b : Nat) :
    Option (Nat × Nat × Nat) × List AgentCall :=
  if lastColor = some (r, g, b) then (lastColor, [])
  else (some (r, g, b), [.colorSelect r g b, .colorSelect r g b])

def formatPixel (p : PixelRecord) : FormattedPixel :=
  { X := p.x, Y := p.y, colorR := p.r, colorG := p.g, colorB := p.b,
    layer := TARGET_LAYER }

/-- `sendBulk` (lines 183-202): format the batch — each record carrying its
own colour — and fire `ReplicateCanvas` once. -/
def sendBulk (batch : List PixelRecord) : List AgentCall :=
  [.bulk TARGET_LAYER (batch.map formatPixel)]

/-- Mutable state of Draw.lua: the `isDrawing` flag (which also stands for
the live heartbeat connection `drawConnection`), the stored stamp
`lastTimestamp`, and the drawing in progress (`pixels`, 1-based `index`,
`total`). -/
structure AgentState where
  isDrawing : Bool
  lastTimestamp : String
  pixels : List PixelRecord
  index : Nat
  total : Nat
deriving DecidableEq, Repr

/-- One heartbeat of `startDrawing`'s connection: when `index > total`
disconnect, clear `isDrawing` and fire the best-effort `UpdateBoard`;
otherwise collect up to `BATCH_SIZE` pixels starting at `index`, advance
`index` past them and send the batch. -/
def heartbeatTick (s : AgentState) : AgentState × List AgentCall :=
  if s.index > s.total then
    ({ s with isDrawing := false }, [.updateBoard])
  else
    ({ s with index := s.index + ((s.pixels.drop (s.index - 1)).take BATCH_SIZE).length },
      sendBulk ((s.pixels.drop (s.index - 1)).take BATCH_SIZE))

/-- Run up to `fuel` heartbeats while the draw connection is live,
collecting the emitted calls. -/
def runDraw : Nat → AgentState → AgentState × List AgentCall
  | 0, s => (s, [])
  | fuel + 1, s =>
      if s.isDrawing then
        ((runDraw fuel (heartbeatTick s).1).1,
          (heartbeatTick s).2 ++ (runDraw fuel (heartbeatTick s).1).2)
      else (s, [])

/-- `meta` as the script reads it from the fetched JSON. -/
structure FetchedMeta where
  canvasSize : Option Nat
  filename : Option String
  updatedAt : Option String
deriving DecidableEq, Repr

/-- Outcome of one fetch of `drawing.json`, as `fetchAndDraw` inspects it:
the HTTP request failed, the body failed to parse as a JSON table, the
table has no `pixels` field, or a document. -/
inductive FetchResult
  | httpFailure
  | jsonFailure
  | missingPixels (meta : Option FetchedMeta)
  | document (meta : Option FetchedMeta) (pixels : List PixelRecord)
deriving DecidableEq, Repr

/-- `tostring(meta.updatedAt or #pixels)` with `meta = data.meta or {}`. -/
def stampOfDoc (meta : Option FetchedMeta) (pixels : List PixelRecord) : String :=
  match meta with
  | some m =>
      match m.updatedAt with
      | some u => u
      | none => toString pixels.length
  | none => toString pixels.length

/-- `startDrawing` (lines 220-277): raise `isDrawing`, load the pixel list
and reset the cursor; the batches themselves are sent by the heartbeats. -/
def startDrawing (s : AgentState) (pixels : List PixelRecord) : AgentState :=
  { s with isDrawing := true, pixels := pixels, index := 1, total := pixels.length }

/-- `fetchAndDraw` (lines 283-330): issue the cache-busted GET; on HTTP
failure, parse failure or a missing `pixels` field log and return with
nothing changed; otherwise compare the stamp with `lastTimestamp` —
equal means up to date, different means record the new stamp and start
drawing. -/
def fetchAndDraw (s : AgentState) (res : FetchResult) : AgentState × List AgentCall :=
  match res with
  | .httpFailure => (s, [.fetchRequest])
  | .jsonFailure => (s, [.fetchRequest])
  | .missingPixels _ => (s, [.fetchRequest])
  | .document meta pixels =>
      if stampOfDoc meta pixels = s.lastTimestamp then (s, [.fetchRequest])
      else (startDrawing { s with lastTimestamp := stampOfDoc meta pixels } pixels,
            [.fetchRequest])

/-- One firing of the polling loop body (lines 349-354):
`if not isDrawing then fetchAndDraw() end`.  While a render is active the
fetch is not even issued. -/
def pollTick (s : AgentState) (res : FetchResult) : AgentState × List AgentCall :=
  if s.isDrawing then (s, []) else fetchAndDraw s res

/-- Number of `ReplicateCanvas` firings (render batches) in a call list. -/
def countBulk (calls : List AgentCall) : Nat :=
  (calls.filter (fun c => match c with | .bulk _ _ => true | _ => false)).length

/-- Number of `ChangeSetting` firings (colour selections) in a call list. -/
def countColorSelect (calls : List AgentCall) : Nat :=
  (calls.filter (fun c => match c with | .colorSelect _ _ _ => true | _ => false)).length

theorem countBulk_append (a b : List AgentCall) :
    countBulk (a ++ b) = countBulk a + countBulk b := by
  simp [countBulk, List.filter_append]

theorem countColorSelect_append (a b : List AgentCall) :
    countColorSelect (a ++ b) = countColorSelect a + countColorSelect b := by
  simp [countColorSelect, List.filter_append]

theorem runDraw_idle (fuel : Nat) (s : AgentState) (h : s.isDrawing = false) :
    runDraw fuel s = (s, []) := by
  cases fuel with
  | zero => rfl
  | succ fuel => simp [runDraw, h]

theorem BATCH_SIZE_eq : BATCH_SIZE = 5 := rfl

/-- Core accounting of a full render: starting from a live drawing state,
the heartbeats send one batch per tick until the cursor passes `total`
(`ceil(remaining / BATCH_SIZE)` batch ticks, one final tick to disconnect),
end with `isDrawing` lowered and never touch `lastTimestamp`. -/
theorem runDraw_count (fuel : Nat) : ∀ s : AgentState,
    s.isDrawing = true → s.total = s.pixels.length →
    1 ≤ s.index → s.index ≤ s.total + 1 →
    (s.total + 1 - s.index + 4) / 5 + 1 ≤ fuel →
    countBulk (runDraw fuel s).2 = (s.total + 1 - s.index + 4) / 5 ∧
    (runDraw fuel s).1.isDrawing = false ∧
    (runDraw fuel s).1.lastTimestamp = s.lastTimestamp := by
  induction fuel with
  | zero =>
      intro s h1 h2 h3 h4 h5
      omega
  | succ fuel ih =>
      intro s h1 h2 h3 h4 h5
      by_cases hidx : s.index > s.total
      · have hrem : s.total + 1 - s.index = 0 := by omega
        have htick : heartbeatTick s = ({ s with isDrawing := false }, [.updateBoard]) := by
          simp [heartbeatTick, hidx]
        have hidle : runDraw fuel ({ s with isDrawing := false } : AgentState)
            = ({ s with isDrawing := false }, []) := runDraw_idle fuel _ rfl
        rw [runDraw]
        simp [h1, htick, hidle, hrem, countBulk]
      · have htick : heartbeatTick s =
            ({ s with index := s.index + ((s.pixels.drop (s.index - 1)).take BATCH_SIZE).length },
              sendBulk ((s.pixels.drop (s.index - 1)).take BATCH_SIZE)) := by
          simp [heartbeatTick, hidx]
        rw [BATCH_SIZE_eq] at htick
        have hblen : ((s.pixels.drop (s.index - 1)).take 5).length
            = min 5 (s.total + 1 - s.index) := by
          rw [List.length_take, List.length_drop, ← h2]
          omega
        obtain ⟨ihc, ihd, iht⟩ := ih
          ({ s with index := s.index + ((s.pixels.drop (s.index - 1)).take 5).length })
          h1 h2 (by simp; omega)
          (by rw [hblen]; simp; omega)
          (by rw [hblen]; simp; omega)
        simp only [h1] at ihc ihd iht
        have hone : countBulk (sendBulk ((s.pixels.drop (s.index - 1)).take 5)) = 1 := rfl
        refine ⟨?_, ?_, ?_⟩
        · rw [runDraw]
          simp only [h1, if_pos, htick]
          rw [countBulk_append, hone, ihc, hblen]
          omega
        · rw [runDraw]
          simp only [h1, if_pos, htick]
          exact ihd
        · rw [runDraw]
          simp only [h1, if_pos, htick]
          exact iht

/-- C2 amended: a fetch whose document carries the stamp already stored is
a no-op (no render batches); a fetch with a different stamp starts a
render that issues exactly `ceil(pixelCount / BATCH_SIZE)` render ticks
and ends idle — but the stored stamp is updated when the document is
accepted, before the first batch is sent (not after the last batch); it is
then preserved through the render, so a following fetch with the same
stamp issues no batches. -/
theorem playback_change_detection (s : AgentState) (meta : Option FetchedMeta)
    (pixels : List PixelRecord) (fuel : Nat)
    (hfuel : (pixels.length + (BATCH_SIZE - 1)) / BATCH_SIZE + 1 ≤ fuel) :
    (stampOfDoc meta pixels = s.lastTimestamp →
        fetchAndDraw s (.document meta pixels) = (s, [.fetchRequest])) ∧
    (stampOfDoc meta pixels ≠ s.lastTimestamp →
        (fetchAndDraw s (.document meta pixels)).1.lastTimestamp = stampOfDoc meta pixels ∧
        countBulk (fetchAndDraw s (.document meta pixels)).2 = 0 ∧
        countBulk (runDraw fuel (fetchAndDraw s (.document meta pixels)).1).2
            = (pixels.length + (BATCH_SIZE - 1)) / BATCH_SIZE ∧
        (runDraw fuel (fetchAndDraw s (.document meta pixels)).1).1.isDrawing = false ∧
        (∀ meta₂ pixels₂, stampOfDoc meta₂ pixels₂ = stampOfDoc meta pixels →
            fetchAndDraw (runDraw fuel (fetchAndDraw s (.document meta pixels)).1).1
                (.document meta₂ pixels₂)
              = ((runDraw fuel (fetchAndDraw s (.document meta pixels)).1).1,
                  [.fetchRequest]))) := by
  rw [BATCH_SIZE_eq] at hfuel
  constructor
  · intro h
    simp [fetchAndDraw, h]
  · intro h
    have hfd : fetchAndDraw s (.document meta pixels)
        = (startDrawing { s with lastTimestamp := stampOfDoc meta pixels } pixels,
            [.fetchRequest]) := by
      simp [fetchAndDraw, h]
    obtain ⟨hcnt, hdone, htime⟩ :=
      runDraw_count fuel (startDrawing { s with lastTimestamp := stampOfDoc meta pixels } pixels)
        rfl rfl (by simp [startDrawing]) (by simp [startDrawing])
        (by simp [startDrawing]; omega)
    rw [hfd]
    refine ⟨by simp [startDrawing], by simp [countBulk], ?_, hdone, ?_⟩
    · rw [BATCH_SIZE_eq, hcnt]
      simp [startDrawing]
    · intro meta₂ pixels₂ hstamp
      have hlast : (runDraw fuel
          (startDrawing { s with lastTimestamp := stampOfDoc meta pixels } pixels)).1.lastTimestamp
            = stampOfDoc meta pixels := by
        rw [htime]
        simp [startDrawing]
      simp [fetchAndDraw, hstamp, hlast]

/-- Witness for C2 amended: a 6-pixel document fetched into a blank agent
is rendered in exactly 2 render ticks (batch size 5). -/
theorem playback_change_detection_witness :
    countBulk (runDraw 3 (fetchAndDraw ⟨false, "", [], 0, 0⟩
        (.document none [⟨1, 1, 9, 9, 9⟩, ⟨2, 1, 9, 9, 9⟩, ⟨3, 1, 9, 9, 9⟩,
          ⟨4, 1, 9, 9, 9⟩, ⟨5, 1, 9, 9, 9⟩, ⟨6, 1, 9, 9, 9⟩])).1).2 = 2 := by
  have h := (playback_change_detection ⟨false, "", [], 0, 0⟩ none
      [⟨1, 1, 9, 9, 9⟩, ⟨2, 1, 9, 9, 9⟩, ⟨3, 1, 9, 9, 9⟩,
        ⟨4, 1, 9, 9, 9⟩, ⟨5, 1, 9, 9, 9⟩, ⟨6, 1, 9, 9, 9⟩] 3 (by decide)).2 (by decide)
  exact h.2.2.1.trans (by decide)

/-- C2 fails in its last clause: accepting a 6-pixel document (stamp "6",
different from the stored "") updates the stored stamp immediately —
before a single one of the (at least one) render batches has been sent —
not "only after the last batch". -/
theorem stamp_updated_before_last_batch :
    (fetchAndDraw ⟨false, "", [], 0, 0⟩
        (.document none [⟨1, 1, 9, 9, 9⟩, ⟨2, 1, 9, 9, 9⟩, ⟨3, 1, 9, 9, 9⟩,
          ⟨4, 1, 9, 9, 9⟩, ⟨5, 1, 9, 9, 9⟩, ⟨6, 1, 9, 9, 9⟩])).1.lastTimestamp = "6" ∧
    countBulk (fetchAndDraw ⟨false, "", [], 0, 0⟩
        (.document none [⟨1, 1, 9, 9, 9⟩, ⟨2, 1, 9, 9, 9⟩, ⟨3, 1, 9, 9, 9⟩,
          ⟨4, 1, 9, 9, 9⟩, ⟨5, 1, 9, 9, 9⟩, ⟨6, 1, 9, 9, 9⟩])).2 = 0 ∧
    1 ≤ countBulk (runDraw 3 (fetchAndDraw ⟨false, "", [], 0, 0⟩
        (.document none [⟨1, 1, 9, 9, 9⟩, ⟨2, 1, 9, 9, 9⟩, ⟨3, 1, 9, 9, 9⟩,
          ⟨4, 1, 9, 9, 9⟩, ⟨5, 1, 9, 9, 9⟩, ⟨6, 1, 9, 9, 9⟩])).1).2 := by
  decide

theorem fetchAndDraw_calls (s : AgentState) (res : FetchResult) :
    (fetchAndDraw s res).2 = [.fetchRequest] := by
  cases res with
  | httpFailure => rfl
  | jsonFailure => rfl
  | missingPixels m => rfl
  | document meta pixels =>
      simp only [fetchAndDraw]
      split <;> rfl

theorem countColorSelect_heartbeat (s : AgentState) :
    countColorSelect (heartbeatTick s).2 = 0 := by
  unfold heartbeatTick
  split <;> simp [countColorSelect, sendBulk]

theorem countColorSelect_runDraw (fuel : Nat) : ∀ s : AgentState,
    countColorSelect (runDraw fuel s).2 = 0 := by
  induction fuel with
  | zero => intro s; rfl
  | succ fuel ih =>
      intro s
      rw [runDraw]
      by_cases h : s.isDrawing = true
      · simp [h, countColorSelect_append, countColorSelect_heartbeat, ih]
      · rw [Bool.not_eq_true] at h
        simp [h, countColorSelect]

/-- C4: the replay issues no colour-select calls at all — `setColor`
carries the `lastColor` deduplication but is never invoked from the
replay path; each pixel's colour travels inside its bulk record — so
every run of consecutive same-coloured pixel records causes at most one
(here: zero) colour-select calls on the surface. -/
theorem replay_never_selects_color (fuel : Nat) (s : AgentState) (res : FetchResult) :
    countColorSelect (fetchAndDraw s res).2 = 0 ∧
    countColorSelect (runDraw fuel (fetchAndDraw s res).1).2 = 0 :=
  ⟨by rw [fetchAndDraw_calls]; rfl, countColorSelect_runDraw fuel _⟩

/-- C6: while a render is active (`isDrawing` raised) the polling loop
body is a no-op — the state is untouched and no call, in particular no
fetch, is issued — so fetch and render are never concurrent. -/
theorem poll_skips_while_drawing (s : AgentState) (res : FetchResult)
    (h : s.isDrawing = true) : pollTick s res = (s, []) := by
  simp [pollTick, h]

/-- Witness for C6 on a mid-render state. -/
theorem poll_skips_while_drawing_witness :
    pollTick ⟨true, "t", [⟨1, 1, 0, 0, 0⟩], 1, 1⟩ .httpFailure
      = (⟨true, "t", [⟨1, 1, 0, 0, 0⟩], 1, 1⟩, []) :=
  poll_skips_while_drawing ⟨true, "t", [⟨1, 1, 0, 0, 0⟩], 1, 1⟩ .httpFailure rfl

/-- C7: a fetch whose outcome is an HTTP failure, a JSON parse failure or
a document without a `pixels` field returns with the whole state —
`lastTimestamp` included — unchanged, issues no render batches, and the
agent (idle, as it is whenever `fetchAndDraw` runs from the poll loop)
runs no heartbeat ticks afterwards. -/
theorem fetch_failure_preserves_state (s : AgentState) (m : Option FetchedMeta)
    (fuel : Nat) (hidle : s.isDrawing = false) :
    fetchAndDraw s .httpFailure = (s, [.fetchRequest]) ∧
    fetchAndDraw s .jsonFailure = (s, [.fetchRequest]) ∧
    fetchAndDraw s (.missingPixels m) = (s, [.fetchRequest]) ∧
    countBulk (fetchAndDraw s .httpFailure).2 = 0 ∧
    countBulk (fetchAndDraw s .jsonFailure).2 = 0 ∧
    countBulk (fetchAndDraw s (.missingPixels m)).2 = 0 ∧
    runDraw fuel s = (s, []) :=
  ⟨rfl, rfl, rfl, rfl, rfl, rfl, runDraw_idle fuel s hidle⟩

/-- Witness for C7 on an idle agent. -/
theorem fetch_failure_preserves_state_witness :
    fetchAndDraw ⟨false, "x", [], 0, 0⟩ .httpFailure = (⟨false, "x", [], 0, 0⟩, [.fetchRequest]) ∧
    fetchAndDraw ⟨false, "x", [], 0, 0⟩ .jsonFailure = (⟨false, "x", [], 0, 0⟩, [.fetchRequest]) ∧
    fetchAndDraw ⟨false, "x", [], 0, 0⟩ (.missingPixels none)
      = (⟨false, "x", [], 0, 0⟩, [.fetchRequest]) ∧
    countBulk (fetchAndDraw ⟨false, "x", [], 0, 0⟩ .httpFailure).2 = 0 ∧
    countBulk (fetchAndDraw ⟨false, "x", [], 0, 0⟩ .jsonFailure).2 = 0 ∧
    countBulk (fetchAndDraw ⟨false, "x", [], 0, 0⟩ (.missingPixels none)).2 = 0 ∧
    runDraw 4 ⟨false, "x", [], 0, 0⟩ = (⟨false, "x", [], 0, 0⟩, []) :=
  fetch_failure_preserves_state ⟨false, "x", [], 0, 0⟩ none 4 rfl
